import Mathlib

/-!
Verification of the `state_ptr` tagged-pointer library (Robbepop/state_ptr).

The repository's current header is `include/putl/state_ptr.hpp`: a class
`state_ptr<T, S, req_state_bits>` storing a pointer and a small state value
packed into one `uintptr_t` word `m_ptr_and_state`, with compile-time masks
derived from `state_bits`.  An older iteration (`state_ptr.hpp` at the repo
root) stores the two components in adjacent bit-fields `m_ptr : ptr_bits`
and `m_state : state_bits`; its relational operators are embedded below as
well because the current header's relational operators reference the
nonexistent member `m_ptr` and cannot be instantiated.

Modelling conventions:
* `uintptr_t` is modelled as `Nat`; the machine word is 64 bits wide
  (the spec's scenario is a 64-bit system), so values of `uintptr_t` are
  naturals `< 2^64`.  No arithmetic in the code can overflow (only `&`,
  `|`, `>>`, `<<` on in-range values), so bounds appear as hypotheses.
* the template parameters are reduced to the one number the runtime code
  depends on: `sb`, the value of the compile-time constant `state_bits`.
* `assert` (active in checked builds) is modelled by `Except String`:
  a failed assertion is `.error` carrying the assertion's message, and
  execution aborts (the `do`-block short-circuits).
* the infinitely recursive operators (`operator==(nullptr_t, state_ptr)`
  and the old iteration's `operator<=` / `operator>`) are embedded with an
  explicit fuel argument returning `Option Bool`; `none` means the call
  has not produced a result within the given number of calls.
-/

namespace putl

/-- `detail::log2`: `while (number > 1) { number /= 2; acc += 1; } return acc;`
rendered as direct recursion (the accumulator only counts the iterations). -/
def log2 (n : Nat) : Nat :=
  if 1 < n then log2 (n / 2) + 1 else 0
termination_by n
decreasing_by exact Nat.div_lt_self (by omega) (by omega)

/-- Width of `uintptr_t` in bits on the modelled 64-bit target. -/
def wordBits : Nat := 64

/-- `state_bits_max = detail::log2(alignof(T))`, as a function of the
pointee's alignment. -/
def state_bits_max (align : Nat) : Nat := log2 align

/-- `state_bits = std::min(req_state_bits, state_bits_max)`. -/
def state_bits (req align : Nat) : Nat := min req (state_bits_max align)

/-- `ptr_bits = 8 * sizeof(pointer_type) - state_bits`. -/
def ptr_bits (sb : Nat) : Nat := wordBits - sb

/-- `state_max = (1u << state_bits) - 1u`.  (The C++ computes this in
32-bit unsigned arithmetic via the literal `1u`; for every legal
instantiation `state_bits < 32` holds and the value is `2^state_bits - 1`,
which is what the `Nat` shift below yields.) -/
def state_max (sb : Nat) : Nat := (1 <<< sb) - 1

/-- `state_mask = state_bits == 0 ? 0 : (~internal_type{0}) >> ptr_bits`. -/
def state_mask (sb : Nat) : Nat :=
  if sb = 0 then 0 else (2 ^ wordBits - 1) >>> ptr_bits sb

/-- `ptr_mask = ~state_mask` (bitwise complement within the 64-bit word). -/
def ptr_mask (sb : Nat) : Nat := (2 ^ wordBits - 1) ^^^ state_mask sb

/-- The class `state_ptr<T, S, req_state_bits>`: its single data member
`internal_type m_ptr_and_state`. -/
structure state_ptr where
  m_ptr_and_state : Nat
deriving DecidableEq, Repr

/-- `is_valid_state(state)`: `static_cast<internal_type>(state) <= state_max`. -/
def is_valid_state (sb s : Nat) : Bool := s ≤ state_max sb

/-- The message of the assertion in `assert_valid_state`. -/
def err_msg : String := "state value is out of bounds for this state_ptr"

/-- `assert_valid_state(state)`:
`assert(is_valid_state(state) && "state value is out of bounds for this state_ptr")`.
In a checked build a failing assert aborts with its diagnostic. -/
def assert_valid_state (sb s : Nat) : Except String Unit :=
  if is_valid_state sb s then .ok () else .error err_msg

/-- `get_ptr_bits()`: `m_ptr_and_state & ptr_mask`. -/
def get_ptr_bits (sb : Nat) (p : state_ptr) : Nat :=
  p.m_ptr_and_state &&& ptr_mask sb

/-- `get_state_bits()`: `m_ptr_and_state & state_mask`. -/
def get_state_bits (sb : Nat) (p : state_ptr) : Nat :=
  p.m_ptr_and_state &&& state_mask sb

/-- `get_state()`: `static_cast<state_type>(get_state_bits())` (the cast is
the identity in the default `S = uintptr_t` instantiation). -/
def get_state (sb : Nat) (p : state_ptr) : Nat := get_state_bits sb p

/-- `get_ptr()`: `reinterpret_cast<pointer_type>(get_ptr_bits())`; the
pointer is identified with its address. -/
def get_ptr (sb : Nat) (p : state_ptr) : Nat := get_ptr_bits sb p

/-- `set_state(new_state)` in a checked build:
`assert_valid_state(new_state); m_ptr_and_state = get_ptr_bits() | new_state;`. -/
def set_state (sb : Nat) (p : state_ptr) (new_state : Nat) :
    Except String state_ptr := do
  assert_valid_state sb new_state
  pure ⟨get_ptr_bits sb p ||| new_state⟩

/-- `set_state` in an unchecked (`NDEBUG`) build: the assert is a no-op. -/
def set_state_unchecked (sb : Nat) (p : state_ptr) (new_state : Nat) :
    state_ptr :=
  ⟨get_ptr_bits sb p ||| new_state⟩

/-- The constructor `state_ptr(pointer_type ptr, state_type state)`:
member-init `m_ptr_and_state{reinterpret_cast<uintptr_t>(ptr)}`, then
`assert_valid_state(state); set_state(state);`. -/
def mk_state_ptr (sb addr s : Nat) : Except String state_ptr := do
  let p : state_ptr := ⟨addr⟩
  assert_valid_state sb s
  set_state sb p s

/-- The constructor `state_ptr(std::nullptr_t, state_type state)`:
member-init `m_ptr_and_state{0}`, then
`assert_valid_state(state); set_state(state);`. -/
def mk_state_ptr_null (sb s : Nat) : Except String state_ptr := do
  let p : state_ptr := ⟨0⟩
  assert_valid_state sb s
  set_state sb p s

/-- `operator==(state_ptr const& rhs, state_ptr const& lhs)`:
`lhs.m_ptr_and_state == rhs.m_ptr_and_state` (the source names its first
parameter `rhs` and its second `lhs`). -/
def eq_op (rhs lhs : state_ptr) : Bool :=
  lhs.m_ptr_and_state == rhs.m_ptr_and_state

/-- `operator!=(state_ptr const& rhs, state_ptr const& lhs)`: `!(lhs == rhs)`. -/
def ne_op (rhs lhs : state_ptr) : Bool := !(eq_op lhs rhs)

/-- `operator bool()`: `get_ptr() != nullptr`. -/
def op_bool (sb : Nat) (p : state_ptr) : Bool := get_ptr sb p != 0

/-- `operator==(state_ptr const& rhs, std::nullptr_t)`: `rhs.get_ptr() == nullptr`. -/
def eq_nullptr (sb : Nat) (rhs : state_ptr) : Bool := get_ptr sb rhs == 0

/-- `operator!=(state_ptr const& rhs, std::nullptr_t)`: `rhs.get_ptr() != nullptr`. -/
def ne_nullptr (sb : Nat) (rhs : state_ptr) : Bool := get_ptr sb rhs != 0

/-- `operator==(std::nullptr_t, state_ptr const& lhs)`: its body
`return nullptr == lhs;` resolves to this very operator again, so the call
recurses forever; with `fuel` calls available it never produces a result. -/
def eq_nullptr_left (sb : Nat) : Nat → state_ptr → Option Bool
  | 0, _ => none
  | fuel + 1, lhs => eq_nullptr_left sb fuel lhs

/-- `operator!=(std::nullptr_t, state_ptr const& lhs)`: its body
`return nullptr == lhs;` calls `operator==(std::nullptr_t, state_ptr)`. -/
def ne_nullptr_left (sb : Nat) : Nat → state_ptr → Option Bool
  | 0, _ => none
  | fuel + 1, lhs => eq_nullptr_left sb fuel lhs

end putl

namespace putlB

/-!
The older iteration (`state_ptr.hpp` at the repository root):
`state_ptr<T>` with bit-field members `uintptr_t m_ptr : ptr_bits` and
`uintptr_t m_state : state_bits`; `m_ptr` stores the address shifted right
by `state_bits`.  Only what claim C3 needs is embedded: the constructor
and the relational operators (which are textually identical to the current
header's, but there the member `m_ptr` actually exists).
-/

/-- `threshold = (1 << state_bits) - 1` of the old iteration. -/
def threshold (sb : Nat) : Nat := (1 <<< sb) - 1

/-- The old class: bit-fields `m_ptr : ptr_bits` and `m_state : state_bits`. -/
structure state_ptrB where
  m_ptr : Nat
  m_state : Nat
deriving DecidableEq, Repr

/-- The old constructor `state_ptr(pointer_type ptr, state_type state)`:
`m_ptr{reinterpret_cast<uintptr_t>(ptr) >> state_bits}, m_state{state}`
(each initializer truncated to its bit-field's width), then
`check_invariant()` asserts `m_state <= threshold`. -/
def mkB (sb addr s : Nat) : Except String state_ptrB :=
  let p : state_ptrB :=
    ⟨(addr >>> sb) % 2 ^ (putl.wordBits - sb), s % 2 ^ sb⟩
  if p.m_state ≤ threshold sb then .ok p
  else .error "assertion m_state <= threshold failed"

/-- The old `get_ptr()`: `uintptr_t c = m_ptr; return (pointer_type)(c << state_bits);`. -/
def get_ptrB (sb : Nat) (p : state_ptrB) : Nat := p.m_ptr <<< sb

/-- `operator<(state_ptr const& rhs, state_ptr const& lhs)`:
`!(lhs.m_ptr < rhs.m_ptr)` — so `a < b` evaluates `!(b.m_ptr < a.m_ptr)`,
i.e. `a.m_ptr <= b.m_ptr`, a non-strict comparison. -/
def ltB (rhs lhs : state_ptrB) : Bool := !(decide (lhs.m_ptr < rhs.m_ptr))

/-- `operator>=(state_ptr const& rhs, state_ptr const& lhs)`:
`!(lhs < rhs)`; the expression `lhs < rhs` calls `operator<` with `lhs` as
its first argument. -/
def geB (rhs lhs : state_ptrB) : Bool := !(ltB lhs rhs)

mutual
/-- `operator<=(state_ptr const& rhs, state_ptr const& lhs)`: `!(lhs > rhs)`;
`operator<=` and `operator>` call each other forever, so with any finite
fuel no result is produced. -/
def leB : Nat → state_ptrB → state_ptrB → Option Bool
  | 0, _, _ => none
  | fuel + 1, rhs, lhs => (gtB fuel lhs rhs).map (! ·)

/-- `operator>(state_ptr const& rhs, state_ptr const& lhs)`: `!(lhs <= rhs)`. -/
def gtB : Nat → state_ptrB → state_ptrB → Option Bool
  | 0, _, _ => none
  | fuel + 1, rhs, lhs => (leB fuel lhs rhs).map (! ·)
end

end putlB

/-! ### Theory of `detail::log2` -/

namespace putl

theorem log2_zero : log2 0 = 0 := by
  rw [log2]; rfl

theorem log2_one : log2 1 = 0 := by
  rw [log2]; rfl

theorem log2_spec (n : Nat) (h : 1 ≤ n) :
    2 ^ log2 n ≤ n ∧ n < 2 ^ (log2 n + 1) := by
  induction n using Nat.strong_induction_on with
  | _ n ih =>
    rw [log2]
    by_cases h2 : 1 < n
    · simp only [if_pos h2]
      have hd : 1 ≤ n / 2 := by omega
      have hlt : n / 2 < n := Nat.div_lt_self (by omega) (by omega)
      obtain ⟨l, u⟩ := ih (n / 2) hlt hd
      constructor
      · calc 2 ^ (log2 (n / 2) + 1) = 2 * 2 ^ log2 (n / 2) := by ring
          _ ≤ 2 * (n / 2) := by omega
          _ ≤ n := by omega
      · calc n < 2 * (n / 2) + 2 := by omega
          _ ≤ 2 * 2 ^ (log2 (n / 2) + 1) := by omega
          _ = 2 ^ (log2 (n / 2) + 1 + 1) := by ring
    · simp only [if_neg h2]
      omega

theorem log2_eq_iff (n k : Nat) (h : 1 ≤ n) :
    log2 n = k ↔ (2 ^ k ≤ n ∧ n < 2 ^ (k + 1)) := by
  obtain ⟨l, u⟩ := log2_spec n h
  constructor
  · rintro rfl; exact ⟨l, u⟩
  · rintro ⟨l2, u2⟩
    by_contra hne
    rcases Nat.lt_or_ge (log2 n) k with hlt | hge
    · have : 2 ^ (log2 n + 1) ≤ 2 ^ k := Nat.pow_le_pow_right (by omega) (by omega)
      omega
    · have : 2 ^ (k + 1) ≤ 2 ^ log2 n := Nat.pow_le_pow_right (by omega) (by omega)
      omega

theorem log2_two_pow (k : Nat) : log2 (2 ^ k) = k := by
  rw [log2_eq_iff _ _ Nat.one_le_two_pow]
  exact ⟨le_refl _, Nat.pow_lt_pow_right (by omega) (by omega)⟩

end putl

/-! ### Bit-level theory of the masks -/

namespace putl

theorem state_max_eq (sb : Nat) : state_max sb = 2 ^ sb - 1 := by
  unfold state_max
  rw [Nat.one_shiftLeft]

theorem testBit_state_mask {sb : Nat} (hsb : sb ≤ 64) (i : Nat) :
    (state_mask sb).testBit i = decide (i < sb) := by
  unfold state_mask ptr_bits wordBits
  by_cases h0 : sb = 0
  · subst h0; simp
  · simp only [if_neg h0, Nat.testBit_shiftRight, Nat.testBit_two_pow_sub_one,
      decide_eq_decide]
    omega

theorem testBit_ptr_mask {sb : Nat} (hsb : sb ≤ 64) (i : Nat) :
    (ptr_mask sb).testBit i = (decide (i < 64) && !decide (i < sb)) := by
  unfold ptr_mask wordBits
  simp only [Nat.testBit_xor, testBit_state_mask hsb, Nat.testBit_two_pow_sub_one]
  rcases Nat.lt_or_ge i 64 with h1 | h1
  · by_cases h2 : i < sb <;> simp [h1, h2]
  · simp [show ¬i < 64 by omega, show ¬i < sb by omega]

theorem testBit_of_aligned {x sb i : Nat} (hx : x % 2 ^ sb = 0) (hi : i < sb) :
    x.testBit i = false := by
  have h := congrArg (fun y => Nat.testBit y i) hx
  simpa [Nat.testBit_mod_two_pow, hi] using h

theorem testBit_of_word {x i : Nat} (hx : x < 2 ^ 64) (hi : 64 ≤ i) :
    x.testBit i = false :=
  Nat.testBit_lt_two_pow
    (lt_of_lt_of_le hx (Nat.pow_le_pow_right (by omega) hi))

theorem testBit_of_state {s sb i : Nat} (hs : s ≤ state_max sb) (hi : sb ≤ i) :
    s.testBit i = false := by
  have h1 : s < 2 ^ sb := by have := state_max_eq sb; have := Nat.pos_pow_of_pos sb (show 0 < 2 by omega); omega
  exact Nat.testBit_lt_two_pow
    (lt_of_lt_of_le h1 (Nat.pow_le_pow_right (by omega) hi))

/-- After `m_ptr_and_state = get_ptr_bits() | new_state`, the pointer bits
are those of the old word. -/
theorem set_bits_ptr {sb : Nat} (hsb : sb ≤ 64) (m s : Nat)
    (hs : s ≤ state_max sb) :
    ((m &&& ptr_mask sb) ||| s) &&& ptr_mask sb = m &&& ptr_mask sb := by
  apply Nat.eq_of_testBit_eq
  intro i
  simp only [Nat.testBit_and, Nat.testBit_or, testBit_ptr_mask hsb]
  by_cases hi : i < sb
  · simp [hi]
  · have hsbit : s.testBit i = false := testBit_of_state hs (by omega)
    simp [hi, hsbit]

/-- After `m_ptr_and_state = get_ptr_bits() | new_state`, the state bits
are exactly `new_state`. -/
theorem set_bits_state {sb : Nat} (hsb : sb ≤ 64) (m s : Nat)
    (hs : s ≤ state_max sb) :
    ((m &&& ptr_mask sb) ||| s) &&& state_mask sb = s := by
  apply Nat.eq_of_testBit_eq
  intro i
  simp only [Nat.testBit_and, Nat.testBit_or, testBit_ptr_mask hsb,
    testBit_state_mask hsb]
  by_cases hi : i < sb
  · simp [hi]
  · have hsbit : s.testBit i = false := testBit_of_state hs (by omega)
    simp [hi, hsbit]

/-- A correctly aligned in-range address is untouched by `& ptr_mask`. -/
theorem aligned_and_ptr_mask {sb : Nat} (hsb : sb ≤ 64) {addr : Nat}
    (ha : addr < 2 ^ 64) (hal : addr % 2 ^ sb = 0) :
    addr &&& ptr_mask sb = addr := by
  apply Nat.eq_of_testBit_eq
  intro i
  simp only [Nat.testBit_and, testBit_ptr_mask hsb]
  by_cases hi : i < sb
  · simp [testBit_of_aligned hal hi]
  · by_cases hj : i < 64
    · simp [hi, hj]
    · have habit : addr.testBit i = false := testBit_of_word ha (by omega)
      simp [habit]

/-- The pointer bits carry no low `state_bits` bits: `get_ptr_bits` is
always a multiple of `2^state_bits`. -/
theorem and_ptr_mask_mod {sb : Nat} (hsb : sb ≤ 64) (m : Nat) :
    (m &&& ptr_mask sb) % 2 ^ sb = 0 := by
  apply Nat.eq_of_testBit_eq
  intro i
  simp only [Nat.testBit_mod_two_pow, Nat.testBit_and, testBit_ptr_mask hsb,
    Nat.zero_testBit]
  by_cases hi : i < sb
  · simp [hi]
  · simp [hi]

/-- Masking with `ptr_mask` zeroes exactly the low `state_bits` bits of an
in-range address. -/
theorem and_ptr_mask_eq_sub {sb : Nat} (hsb : sb ≤ 64) {addr : Nat}
    (ha : addr < 2 ^ 64) :
    addr &&& ptr_mask sb = addr - addr % 2 ^ sb := by
  have key : addr &&& ptr_mask sb = 2 ^ sb * (addr / 2 ^ sb) := by
    apply Nat.eq_of_testBit_eq
    intro i
    rw [← Nat.shiftRight_eq_div_pow]
    simp only [Nat.testBit_and, testBit_ptr_mask hsb, Nat.testBit_mul_pow_two,
      Nat.testBit_shiftRight]
    by_cases hi : i < sb
    · simp [hi, show ¬sb ≤ i by omega]
    · by_cases hj : i < 64
      · simp [hi, hj, show sb ≤ i by omega, show sb + (i - sb) = i by omega]
      · have habit : addr.testBit i = false := testBit_of_word ha (by omega)
        simp [hi, hj, habit, show sb ≤ i by omega,
          show sb + (i - sb) = i by omega]
  have hdm := Nat.div_add_mod addr (2 ^ sb)
  omega

/-- Two words below `2^64` agreeing on pointer bits and on state bits are
equal. -/
theorem eq_of_components {sb : Nat} (hsb : sb ≤ 64) {m1 m2 : Nat}
    (h1 : m1 < 2 ^ 64) (h2 : m2 < 2 ^ 64)
    (hp : m1 &&& ptr_mask sb = m2 &&& ptr_mask sb)
    (hst : m1 &&& state_mask sb = m2 &&& state_mask sb) : m1 = m2 := by
  apply Nat.eq_of_testBit_eq
  intro i
  by_cases hi : i < sb
  · have := congrArg (fun y => Nat.testBit y i) hst
    simpa [Nat.testBit_and, testBit_state_mask hsb, hi] using this
  · by_cases hj : i < 64
    · have := congrArg (fun y => Nat.testBit y i) hp
      simpa [Nat.testBit_and, testBit_ptr_mask hsb, hi, hj] using this
    · rw [testBit_of_word h1 (by omega), testBit_of_word h2 (by omega)]

/-- The state mask never exceeds `state_max`. -/
theorem state_mask_le_state_max {sb : Nat} (hsb : sb ≤ 64) :
    state_mask sb ≤ state_max sb := by
  rcases Nat.eq_zero_or_pos sb with h0 | h0
  · subst h0; rfl
  · have : state_mask sb = 2 ^ sb - 1 := by
      apply Nat.eq_of_testBit_eq
      intro i
      rw [testBit_state_mask hsb, Nat.testBit_two_pow_sub_one]
    rw [this, state_max_eq]

end putl

/-! ### Evaluation lemmas for the checked operations -/

namespace putl

theorem set_state_ok {sb : Nat} (p : state_ptr) {s : Nat}
    (hs : s ≤ state_max sb) :
    set_state sb p s = .ok ⟨get_ptr_bits sb p ||| s⟩ := by
  unfold set_state assert_valid_state is_valid_state
  simp [hs, Bind.bind, Except.bind, pure, Except.pure]

theorem set_state_err {sb : Nat} (p : state_ptr) {s : Nat}
    (hs : state_max sb < s) :
    set_state sb p s = .error err_msg := by
  unfold set_state assert_valid_state is_valid_state
  simp [Nat.not_le_of_lt hs, Bind.bind, Except.bind]

theorem mk_state_ptr_ok {sb : Nat} (addr : Nat) {s : Nat}
    (hs : s ≤ state_max sb) :
    mk_state_ptr sb addr s = .ok ⟨(addr &&& ptr_mask sb) ||| s⟩ := by
  unfold mk_state_ptr assert_valid_state is_valid_state
  simp [hs, Bind.bind, Except.bind]
  exact set_state_ok _ hs

theorem mk_state_ptr_err {sb : Nat} (addr : Nat) {s : Nat}
    (hs : state_max sb < s) :
    mk_state_ptr sb addr s = .error err_msg := by
  unfold mk_state_ptr assert_valid_state is_valid_state
  simp [Nat.not_le_of_lt hs, Bind.bind, Except.bind]

theorem mk_state_ptr_null_ok {sb : Nat} {s : Nat}
    (hs : s ≤ state_max sb) :
    mk_state_ptr_null sb s = .ok ⟨s⟩ := by
  unfold mk_state_ptr_null assert_valid_state is_valid_state
  simp [hs, Bind.bind, Except.bind]
  rw [set_state_ok _ hs]
  unfold get_ptr_bits
  simp

theorem mk_state_ptr_null_err {sb : Nat} {s : Nat}
    (hs : state_max sb < s) :
    mk_state_ptr_null sb s = .error err_msg := by
  unfold mk_state_ptr_null assert_valid_state is_valid_state
  simp [Nat.not_le_of_lt hs, Bind.bind, Except.bind]

end putl

/-- Claim C1: for every pointer value `addr` that is correctly aligned for
the element type (its low `state_bits` bits are zero) and every state value
`s` with `0 ≤ s ≤ state_max`, constructing a `state_ptr` from `(addr, s)`
and then calling `get_ptr()` and `get_state()` yields exactly `addr` and
exactly `s`. -/
theorem claim_C1_round_trip (sb addr s : Nat) (hsb : sb ≤ 64)
    (ha : addr < 2 ^ 64) (hal : addr % 2 ^ sb = 0)
    (hs : s ≤ putl.state_max sb) :
    ∃ p : putl.state_ptr, putl.mk_state_ptr sb addr s = .ok p ∧
      putl.get_ptr sb p = addr ∧ putl.get_state sb p = s := by
  refine ⟨⟨(addr &&& putl.ptr_mask sb) ||| s⟩, putl.mk_state_ptr_ok addr hs, ?_, ?_⟩
  · show ((addr &&& putl.ptr_mask sb) ||| s) &&& putl.ptr_mask sb = addr
    rw [putl.set_bits_ptr hsb addr s hs, putl.aligned_and_ptr_mask hsb ha hal]
  · show ((addr &&& putl.ptr_mask sb) ||| s) &&& putl.state_mask sb = s
    exact putl.set_bits_state hsb addr s hs

/-- Witness for C1: the round trip at `state_bits = 3`, address 8
(8-byte aligned), state 5. -/
theorem claim_C1_round_trip_witness :
    ∃ p : putl.state_ptr, putl.mk_state_ptr 3 8 5 = .ok p ∧
      putl.get_ptr 3 p = 8 ∧ putl.get_state 3 p = 5 :=
  claim_C1_round_trip 3 8 5 (by decide) (by decide) (by decide) (by decide)

/-- Claim C2: equality is conjunctive over the full packed word: `a == b`
holds iff the packed words are equal, iff both the reconstructed pointers
are equal and the states are equal; in particular two `state_ptr`s with the
same pointer but different state are not equal. -/
theorem claim_C2_equality_conjunctive (sb : Nat) (hsb : sb ≤ 64)
    (a b : putl.state_ptr)
    (ha : a.m_ptr_and_state < 2 ^ 64) (hb : b.m_ptr_and_state < 2 ^ 64) :
    (putl.eq_op a b = true ↔ a.m_ptr_and_state = b.m_ptr_and_state)
    ∧ (putl.eq_op a b = true ↔
        (putl.get_ptr sb a = putl.get_ptr sb b ∧
         putl.get_state sb a = putl.get_state sb b))
    ∧ (putl.get_state sb a ≠ putl.get_state sb b → putl.eq_op a b = false) := by
  have hword : putl.eq_op a b = true ↔ a.m_ptr_and_state = b.m_ptr_and_state := by
    unfold putl.eq_op
    rw [beq_iff_eq]
    exact eq_comm
  have hcomp : putl.eq_op a b = true ↔
      (putl.get_ptr sb a = putl.get_ptr sb b ∧
       putl.get_state sb a = putl.get_state sb b) := by
    rw [hword]
    unfold putl.get_ptr putl.get_ptr_bits putl.get_state putl.get_state_bits
    constructor
    · rintro h
      rw [h]
      exact ⟨rfl, rfl⟩
    · rintro ⟨hp, hst⟩
      exact putl.eq_of_components hsb ha hb hp hst
  refine ⟨hword, hcomp, fun hne => ?_⟩
  rcases h : putl.eq_op a b with _ | _
  · rfl
  · exact absurd (hcomp.mp h).2 hne

/-- Witness for C2: two concrete packed words (same pointer bits 8, states
2 and 1, at `state_bits = 3`) compare unequal. -/
theorem claim_C2_equality_conjunctive_witness :
    putl.eq_op ⟨8 + 2⟩ ⟨8 + 1⟩ = false :=
  (claim_C2_equality_conjunctive 3 (by decide) ⟨8 + 2⟩ ⟨8 + 1⟩
    (by decide) (by decide)).2.2 (by decide)

/-- Claim C5: for every `state_ptr` `p` and every `new_state ≤ state_max`,
`set_state(new_state)` leaves the pointer field unchanged and afterwards
`get_state()` returns exactly `new_state`, regardless of the pointer
field's value. -/
theorem claim_C5_set_state_frame (sb s : Nat) (p : putl.state_ptr)
    (hsb : sb ≤ 64) (hs : s ≤ putl.state_max sb) :
    ∃ q, putl.set_state sb p s = .ok q ∧
      putl.get_ptr sb q = putl.get_ptr sb p ∧
      putl.get_state sb q = s := by
  refine ⟨⟨putl.get_ptr_bits sb p ||| s⟩, putl.set_state_ok p hs, ?_, ?_⟩
  · show ((p.m_ptr_and_state &&& putl.ptr_mask sb) ||| s) &&& putl.ptr_mask sb
        = putl.get_ptr sb p
    exact putl.set_bits_ptr hsb p.m_ptr_and_state s hs
  · show ((p.m_ptr_and_state &&& putl.ptr_mask sb) ||| s) &&& putl.state_mask sb = s
    exact putl.set_bits_state hsb p.m_ptr_and_state s hs

/-- Witness for C5: `set_state(5)` on the packed word 11 at
`state_bits = 3` keeps the pointer bits (8) and stores state 5. -/
theorem claim_C5_set_state_frame_witness :
    ∃ q, putl.set_state 3 ⟨11⟩ 5 = .ok q ∧
      putl.get_ptr 3 q = putl.get_ptr 3 ⟨11⟩ ∧
      putl.get_state 3 q = 5 :=
  claim_C5_set_state_frame 3 5 ⟨11⟩ (by decide) (by decide)

/-- Claim C8: for every `state_ptr` value — whatever sequence of
constructions and `set_state` calls produced it, including unchecked-build
`set_state` calls whose argument exceeds `state_max` — `get_state()`
returns at most `state_max`, because the accessor masks the packed word
down to the low `state_bits` bits. -/
theorem claim_C8_state_bounded (sb : Nat) (hsb : sb ≤ 64)
    (p : putl.state_ptr) (s : Nat) :
    putl.get_state sb p ≤ putl.state_max sb ∧
    putl.get_state sb (putl.set_state_unchecked sb p s) ≤ putl.state_max sb := by
  have h : ∀ q : putl.state_ptr, putl.get_state sb q ≤ putl.state_max sb := by
    intro q
    exact le_trans Nat.and_le_right (putl.state_mask_le_state_max hsb)
  exact ⟨h p, h (putl.set_state_unchecked sb p s)⟩

/-- Witness for C8: the invariant at `state_bits = 3` for the packed word
13 and an out-of-bounds unchecked `set_state(1337)`. -/
theorem claim_C8_state_bounded_witness :
    putl.get_state 3 ⟨13⟩ ≤ putl.state_max 3 ∧
    putl.get_state 3 (putl.set_state_unchecked 3 ⟨13⟩ 1337) ≤ putl.state_max 3 :=
  claim_C8_state_bounded 3 (by decide) ⟨13⟩ 1337

/-- Claim C9: for every `state_ptr` value, `get_ptr()` returns a multiple
of `2^state_bits`; when a misaligned non-null pointer is supplied at
construction, the reconstructed pointer silently has its low `state_bits`
bits zeroed rather than preserved. -/
theorem claim_C9_ptr_aligned (sb : Nat) (hsb : sb ≤ 64) (p : putl.state_ptr)
    (addr s : Nat) (ha : addr < 2 ^ 64) (hs : s ≤ putl.state_max sb) :
    putl.get_ptr sb p % 2 ^ sb = 0 ∧
    ∃ q, putl.mk_state_ptr sb addr s = .ok q ∧
      putl.get_ptr sb q = addr - addr % 2 ^ sb := by
  refine ⟨putl.and_ptr_mask_mod hsb p.m_ptr_and_state,
    ⟨(addr &&& putl.ptr_mask sb) ||| s⟩, putl.mk_state_ptr_ok addr hs, ?_⟩
  show ((addr &&& putl.ptr_mask sb) ||| s) &&& putl.ptr_mask sb
      = addr - addr % 2 ^ sb
  rw [putl.set_bits_ptr hsb addr s hs, putl.and_ptr_mask_eq_sub hsb ha]

/-- Witness for C9: constructing from the misaligned address 13 at
`state_bits = 3` reconstructs the pointer 13 - 13 % 8 = 8. -/
theorem claim_C9_ptr_aligned_witness :
    putl.get_ptr 3 ⟨13⟩ % 2 ^ 3 = 0 ∧
    ∃ q, putl.mk_state_ptr 3 13 5 = .ok q ∧
      putl.get_ptr 3 q = 13 - 13 % 2 ^ 3 :=
  claim_C9_ptr_aligned 3 (by decide) ⟨13⟩ 13 5 (by decide) (by decide)

/-! ### Non-termination of the mutually recursive operators -/

namespace putlB

/-- The bodies of `operator<=` and `operator>` call each other with swapped
arguments and never reach a base case: no amount of fuel yields a result. -/
theorem leB_gtB_none :
    ∀ (fuel : Nat) (a b : state_ptrB),
      leB fuel a b = none ∧ gtB fuel a b = none := by
  intro fuel
  induction fuel with
  | zero => intro a b; exact ⟨rfl, rfl⟩
  | succ f ih =>
    intro a b
    constructor
    · show (gtB f b a).map (! ·) = none
      rw [(ih b a).2]
      rfl
    · show (leB f b a).map (! ·) = none
      rw [(ih b a).1]
      rfl

end putlB

namespace putl

/-- `operator==(std::nullptr_t, state_ptr)` calls itself: no amount of fuel
yields a result. -/
theorem eq_nullptr_left_none (sb : Nat) :
    ∀ (fuel : Nat) (p : state_ptr), eq_nullptr_left sb fuel p = none := by
  intro fuel
  induction fuel with
  | zero => intro p; rfl
  | succ f ih => intro p; exact ih p

/-- `operator!=(std::nullptr_t, state_ptr)` delegates to the self-recursive
`operator==(std::nullptr_t, state_ptr)`: it never yields a result either. -/
theorem ne_nullptr_left_none (sb : Nat) :
    ∀ (fuel : Nat) (p : state_ptr), ne_nullptr_left sb fuel p = none := by
  intro fuel
  cases fuel with
  | zero => intro p; rfl
  | succ f => intro p; exact eq_nullptr_left_none sb f p

end putl

/-- Claim C3 is false of the code: at `state_bits = 3`, construct the old
iteration's `state_ptr`s from the 8-byte-aligned addresses 8 and 16 (states
0); the reconstructed pointers differ (8 vs 16).  Then `p < q` is true, yet
`p >= q` is also true — the claimed consistency `p >= q ↔ ¬(p < q)` fails —
and `p <= q` and `p > q` never produce a result at any fuel, because
`operator<=` and `operator>` are defined in terms of each other. -/
theorem claim_C3_ordering_inconsistent :
    putlB.mkB 3 8 0 = .ok ⟨1, 0⟩ ∧ putlB.mkB 3 16 0 = .ok ⟨2, 0⟩ ∧
    putlB.get_ptrB 3 ⟨1, 0⟩ = 8 ∧ putlB.get_ptrB 3 ⟨2, 0⟩ = 16 ∧
    putlB.ltB ⟨1, 0⟩ ⟨2, 0⟩ = true ∧
    putlB.geB ⟨1, 0⟩ ⟨2, 0⟩ = true ∧
    (∀ fuel, putlB.leB fuel ⟨1, 0⟩ ⟨2, 0⟩ = none) ∧
    (∀ fuel, putlB.gtB fuel ⟨1, 0⟩ ⟨2, 0⟩ = none) := by
  refine ⟨rfl, rfl, rfl, rfl, by decide, by decide,
    fun fuel => (putlB.leB_gtB_none fuel _ _).1,
    fun fuel => (putlB.leB_gtB_none fuel _ _).2⟩

/-- Claim C10 is false as stated: it asserts that `(nullptr == p)` — and
with it `(nullptr != p)` — evaluates to true iff the reconstructed pointer
is null; but on the concrete null-pointer-valued `state_ptr` (packed word
0, `state_bits = 3`) the call produces no result at any fuel, since
`operator==(std::nullptr_t, state_ptr)` resolves its body `nullptr == lhs`
to itself. -/
theorem claim_C10_counterexample :
    ¬ ∃ (fuel : Nat) (b : Bool), putl.eq_nullptr_left 3 fuel ⟨0⟩ = some b := by
  rintro ⟨fuel, b, h⟩
  rw [putl.eq_nullptr_left_none 3 fuel ⟨0⟩] at h
  exact Option.noConfusion h

/-- Claim C10 (amended): the two argument orders of null comparison are
indeed asymmetric, but not as claimed: `(p != nullptr)` returns true iff
the reconstructed pointer is non-null, while `(nullptr != p)` is defined to
delegate to `(nullptr == p)`, whose body resolves to itself, so neither
`(nullptr == p)` nor `(nullptr != p)` ever produces a result. -/
theorem claim_C10_null_inequality_asymmetric (sb : Nat) (p : putl.state_ptr) :
    (putl.ne_nullptr sb p = true ↔ putl.get_ptr sb p ≠ 0)
    ∧ (∀ fuel, putl.ne_nullptr_left sb (fuel + 1) p
        = putl.eq_nullptr_left sb fuel p)
    ∧ (∀ fuel, putl.eq_nullptr_left sb fuel p = none)
    ∧ (∀ fuel, putl.ne_nullptr_left sb fuel p = none) := by
  refine ⟨?_, fun fuel => rfl, fun fuel => putl.eq_nullptr_left_none sb fuel p,
    fun fuel => putl.ne_nullptr_left_none sb fuel p⟩
  unfold putl.ne_nullptr
  exact bne_iff_ne

/-- Claim C4: for every state value v with v > state_max, constructing a
`state_ptr` with initial state v (from a pointer or from null) or calling
`set_state(v)` in a checked build aborts with the diagnostic
"state value is out of bounds" (the assertion's full message extends this
pattern); for every v ≤ state_max no abort occurs. -/
theorem claim_C4_bounds_enforced (sb v addr : Nat) (p : putl.state_ptr) :
    (putl.state_max sb < v →
      putl.mk_state_ptr sb addr v = .error putl.err_msg ∧
      putl.mk_state_ptr_null sb v = .error putl.err_msg ∧
      putl.set_state sb p v = .error putl.err_msg)
    ∧ putl.err_msg = "state value is out of bounds" ++ " for this state_ptr"
    ∧ (v ≤ putl.state_max sb →
      (∃ q, putl.mk_state_ptr sb addr v = .ok q) ∧
      (∃ q, putl.mk_state_ptr_null sb v = .ok q) ∧
      (∃ q, putl.set_state sb p v = .ok q)) := by
  refine ⟨fun hv => ⟨putl.mk_state_ptr_err addr hv, putl.mk_state_ptr_null_err hv,
    putl.set_state_err p hv⟩, rfl, fun hv => ?_⟩
  exact ⟨⟨_, putl.mk_state_ptr_ok addr hv⟩, ⟨_, putl.mk_state_ptr_null_ok hv⟩,
    ⟨_, putl.set_state_ok p hv⟩⟩

/-- Witness for C4: at `state_bits = 3` (`state_max = 7`), state 8 aborts
construction and state 1337 aborts `set_state`, while state 5 succeeds. -/
theorem claim_C4_bounds_enforced_witness :
    putl.mk_state_ptr 3 8 8 = .error putl.err_msg ∧
    putl.set_state 3 ⟨8⟩ 1337 = .error putl.err_msg ∧
    (∃ q, putl.set_state 3 ⟨8⟩ 5 = .ok q) :=
  ⟨((claim_C4_bounds_enforced 3 8 8 ⟨8⟩).1 (by decide)).1,
   ((claim_C4_bounds_enforced 3 1337 8 ⟨8⟩).1 (by decide)).2.2,
   ((claim_C4_bounds_enforced 3 5 8 ⟨8⟩).2.2 (by decide)).2.2⟩

/-- Claim C6: a `state_ptr` constructed from `(null, s)` for any valid s
has `get_ptr()` null, boolean conversion false, and compares equal to a
bare null; in general `p == nullptr` holds iff `get_ptr()` is null,
regardless of p's state. -/
theorem claim_C6_null_identity (sb s : Nat) (hsb : sb ≤ 64)
    (hs : s ≤ putl.state_max sb) :
    (∃ p, putl.mk_state_ptr_null sb s = .ok p ∧
      putl.get_ptr sb p = 0 ∧ putl.op_bool sb p = false ∧
      putl.eq_nullptr sb p = true)
    ∧ ∀ q : putl.state_ptr,
        putl.eq_nullptr sb q = true ↔ putl.get_ptr sb q = 0 := by
  have hptr : putl.get_ptr sb (⟨s⟩ : putl.state_ptr) = 0 := by
    show s &&& putl.ptr_mask sb = 0
    have h := putl.set_bits_ptr hsb 0 s hs
    simpa using h
  refine ⟨⟨⟨s⟩, putl.mk_state_ptr_null_ok hs, hptr, ?_, ?_⟩, fun q => ?_⟩
  · unfold putl.op_bool
    rw [hptr]
    rfl
  · unfold putl.eq_nullptr
    rw [hptr]
    rfl
  · unfold putl.eq_nullptr
    exact beq_iff_eq

/-- Witness for C6: the null constructor with the maximal state 7 at
`state_bits = 3`. -/
theorem claim_C6_null_identity_witness :
    ∃ p, putl.mk_state_ptr_null 3 7 = .ok p ∧
      putl.get_ptr 3 p = 0 ∧ putl.op_bool 3 p = false ∧
      putl.eq_nullptr 3 p = true :=
  (claim_C6_null_identity 3 7 (by decide) (by decide)).1

/-- Claim C7: for every n ≥ 1, `detail::log2(n)` returns the largest integer
k with 2^k ≤ n (the floored base-2 logarithm), and `log2(0) = 0`; in
particular `log2(1) = 0`, `log2(2^k) = k` for every k up to the pointer bit
width (64), `log2(13) = 3`, `log2(17) = 4`, and `log2(35) = 5`. -/
theorem claim_C7_log2_correct :
    (∀ n : Nat, 1 ≤ n →
      2 ^ putl.log2 n ≤ n ∧ ∀ k : Nat, 2 ^ k ≤ n → k ≤ putl.log2 n)
    ∧ putl.log2 0 = 0 ∧ putl.log2 1 = 0
    ∧ (∀ k : Nat, k ≤ 64 → putl.log2 (2 ^ k) = k)
    ∧ putl.log2 13 = 3 ∧ putl.log2 17 = 4 ∧ putl.log2 35 = 5 := by
  refine ⟨fun n h => ⟨(putl.log2_spec n h).1, fun k hk => ?_⟩,
    putl.log2_zero, putl.log2_one, fun k _ => putl.log2_two_pow k, ?_, ?_, ?_⟩
  · by_contra hgt
    have h2 : 2 ^ (putl.log2 n + 1) ≤ 2 ^ k := Nat.pow_le_pow_right (by omega) (by omega)
    have := (putl.log2_spec n h).2
    omega
  · rw [putl.log2_eq_iff _ _ (by omega)]; norm_num
  · rw [putl.log2_eq_iff _ _ (by omega)]; norm_num
  · rw [putl.log2_eq_iff _ _ (by omega)]; norm_num

/-- Witness for C7: the universally quantified parts of C7 applied at the
concrete inputs n = 13, k = 3 and k = 5, with the hypotheses discharged. -/
theorem claim_C7_log2_correct_witness :
    (2 ^ putl.log2 13 ≤ 13 ∧ 3 ≤ putl.log2 13) ∧ putl.log2 (2 ^ 5) = 5 := by
  obtain ⟨hspec, _, _, hpow, h13, _, _⟩ := claim_C7_log2_correct
  exact ⟨⟨(hspec 13 (by norm_num)).1, (hspec 13 (by norm_num)).2 3 (by norm_num)⟩,
    hpow 5 (by norm_num)⟩
